import Mathlib

/-!
Shallow embedding of the SPARQL tool adapter in `src/tools/spendcast.py`
(pfm repository): configuration loading from environment variables,
the SPARQL query validator, the HTTP query executor, and the
synchronous/asynchronous tool entry points.

Modelling conventions:
* The process environment is a function `String → Option String`
  (`os.getenv` returns `None` for an absent variable).
* Python truthiness of an optional string (`not x`) is `pyFalsy`.
* Python strings are Lean `String`s; `pat in s` is substring search
  (`strContains`), `str.strip` is `pyStrip`, `str.upper` is `pyUpper`
  (per-character ASCII uppercasing, which agrees with Python on the
  ASCII queries and keywords this code handles), `str.count` of a
  one-character pattern is `List.count` on the character list.
* The HTTP layer (httpx) is a `Transport`: a function from the request
  the executor builds to an outcome — either a response (status, body
  text, and the result of JSON-decoding the body, `none` meaning
  `json.JSONDecodeError`) or a raised `httpx.RequestError` carrying its
  string description.  `response.raise_for_status()` raises
  `httpx.HTTPStatusError` exactly when the status is not 2xx.
* The executor returns, besides its Python return value (or raised
  error), the list of HTTP requests it issued, so that "no network call
  was attempted" is the statement that this list is empty.
-/

namespace Spendcast

/-- Python truthiness failure of an `os.getenv` result: `not x` is true
when the variable is absent (`None`) or set to the empty string. -/
def pyFalsy : Option String → Bool
  | none => true
  | some s => s.isEmpty

/-- A raised Python exception, as observed by callers of the executor.
`get_config` raises `ValueError(msg)`; the spec calls this condition
`ConfigurationError`. -/
inductive PyError where
  | valueError (msg : String)
  deriving DecidableEq

/-- `GraphDBConfig` pydantic model: the three connection parameters. -/
structure GraphDBConfig where
  url : String
  username : String
  password : String
  deriving DecidableEq

/-- `get_config`: reads `GRAPHDB_URL`, `GRAPHDB_USER`, `GRAPHDB_PASSWORD`
from the environment; raises `ValueError` naming the first missing one
(checked in that order); otherwise returns the configuration. -/
def get_config (env : String → Option String) : Except PyError GraphDBConfig :=
  if pyFalsy (env "GRAPHDB_URL") then
    .error (.valueError "GRAPHDB_URL environment variable not set.")
  else if pyFalsy (env "GRAPHDB_USER") then
    .error (.valueError "GRAPHDB_USER environment variable not set.")
  else if pyFalsy (env "GRAPHDB_PASSWORD") then
    .error (.valueError "GRAPHDB_PASSWORD environment variable not set.")
  else
    .ok { url := (env "GRAPHDB_URL").getD "",
          username := (env "GRAPHDB_USER").getD "",
          password := (env "GRAPHDB_PASSWORD").getD "" }

/-- `startsWithL s p`: the character list `s` starts with `p`
(Python `s.startswith(p)`). -/
def startsWithL : List Char → List Char → Bool
  | _, [] => true
  | [], _ :: _ => false
  | a :: s, b :: p => a == b && startsWithL s p

/-- `containsSub s p`: `p` occurs as a contiguous sublist of `s`
(Python substring operator `p in s`). -/
def containsSub : List Char → List Char → Bool
  | [], p => startsWithL [] p
  | a :: s, p => startsWithL (a :: s) p || containsSub s p

/-- Python `pat in s` on strings. -/
def strContains (s pat : String) : Bool :=
  containsSub s.data pat.data

/-- Python `str.isspace` characters removed by `str.strip()`. -/
def pyIsSpace (c : Char) : Bool :=
  c == ' ' || c == '\t' || c == '\n' || c == '\r' || c == '\x0b' || c == '\x0c'

/-- Python `str.strip()`: drop whitespace from both ends. -/
def pyStrip (s : List Char) : List Char :=
  ((s.dropWhile pyIsSpace).reverse.dropWhile pyIsSpace).reverse

/-- Python `str.upper()` (ASCII per-character uppercasing). -/
def pyUpper (s : List Char) : List Char :=
  s.map Char.toUpper

/-- Python `s.startswith((p1, ..., pn))`: any of the patterns works. -/
def startsWithAny (s : List Char) (pats : List String) : Bool :=
  pats.any (fun p => startsWithL s p.data)

/-- The left curly bracket character, `'\x7b'`. -/
def lbrace : Char := Char.ofNat 123

/-- The right curly bracket character, `'\x7d'`. -/
def rbrace : Char := Char.ofNat 125

/-- `required_prefixes` in `validate_sparql_query`. -/
def required_prefixes : List String := ["pfm:", "ex:"]

/-- The four keywords accepted by the second validator rule. -/
def sparql_keywords : List String := ["SELECT", "ASK", "CONSTRUCT", "DESCRIBE"]

/-- The required-prefix strings not occurring in `query`
(the `missing_prefixes` list built by `validate_sparql_query`). -/
def missing_prefixes (query : String) : List String :=
  required_prefixes.filter (fun p => ! strContains query p)

/-- `validate_sparql_query`: basic SPARQL query validation, returning
`(is_valid, message)`.  The Python early returns become nested
if-then-else, in source order: missing required prefixes, then leading
keyword after strip/upper, then brace-count balance, then presence of
braces, then success. -/
def validate_sparql_query (query : String) : Bool × String :=
  if ¬ (missing_prefixes query).isEmpty then
    (false, "Missing required prefixes: " ++
      String.intercalate ", " (missing_prefixes query))
  else if ¬ startsWithAny (pyUpper (pyStrip query.data)) sparql_keywords then
    (false, "Query must start with SELECT, ASK, CONSTRUCT, or DESCRIBE")
  else if query.data.count lbrace ≠ query.data.count rbrace then
    (false, "Unbalanced braces in SPARQL query")
  else if ¬ strContains query (String.singleton lbrace)
       ∨ ¬ strContains query (String.singleton rbrace) then
    (false, "Missing WHERE clause with braces")
  else
    (true, "Query is valid")

/-- A JSON value (the decoded body of a GraphDB response, or the error
dictionary the executor returns). -/
inductive Json where
  | null
  | bool (b : Bool)
  | num (n : Int)
  | str (s : String)
  | arr (elems : List Json)
  | obj (fields : List (String × Json))

/-- The HTTP request `client.post(...)` sends: method, URL, headers,
form-encoded body fields, basic-auth credentials, timeout in seconds. -/
structure HttpRequest where
  method : String
  url : String
  headers : List (String × String)
  data : List (String × String)
  auth : Option (String × String)
  timeoutSecs : Nat

/-- An HTTP response as the executor observes it: status code, body
text, and the result of `response.json()` (`none` models a
`json.JSONDecodeError`). -/
structure HttpResponse where
  status : Nat
  text : String
  jsonBody : Option Json

/-- Outcome of one `client.post` call: a response, or a raised
`httpx.RequestError` (DNS failure, connection refused, timeout)
carrying its string description. -/
inductive TransportOutcome where
  | ok (resp : HttpResponse)
  | requestError (desc : String)

/-- The HTTP layer: how the network answers the one request the
executor builds. -/
def Transport := HttpRequest → TransportOutcome

/-- `httpx.Response.is_success`: the status is 2xx.
`response.raise_for_status()` raises `HTTPStatusError` iff this is false. -/
def is_success (status : Nat) : Bool :=
  200 ≤ status && status < 300

/-- The `{"error": msg}` dictionary the executor returns on failure. -/
def errorDict (msg : String) : Json :=
  Json.obj [("error", Json.str msg)]

/-- The request `_execute_sparql_impl` builds from the loaded
configuration and the query: `client.post(config.url, headers=headers,
data={"query": query}, auth=BasicAuth(username, password), timeout=30.0)`. -/
def mkRequest (config : GraphDBConfig) (query : String) : HttpRequest :=
  { method := "POST",
    url := config.url,
    headers := [("Content-Type", "application/x-www-form-urlencoded"),
                ("Accept", "application/sparql-results+json")],
    data := [("query", query)],
    auth := some (config.username, config.password),
    timeoutSecs := 30 }

/-- `_execute_sparql_impl`: load the configuration (a `ValueError` from
`get_config` propagates — it is raised before the `try` block), send
the POST request, and map the three caught exception classes to
`{"error": ...}` dictionaries:
`httpx.HTTPStatusError` (non-2xx status) to a message with the status
code and body text, `httpx.RequestError` to a message with the cause
description, `json.JSONDecodeError` to a fixed message.  On a 2xx
response with a JSON body, return the decoded body unchanged.
The second component is the list of HTTP requests issued. -/
def execute_sparql_impl (env : String → Option String) (transport : Transport)
    (query : String) : Except PyError Json × List HttpRequest :=
  match get_config env with
  | .error e => (.error e, [])
  | .ok config =>
    match transport (mkRequest config query) with
    | .requestError desc =>
        (.ok (errorDict ("An error occurred while connecting to GraphDB: " ++ desc)),
         [mkRequest config query])
    | .ok resp =>
        if ¬ is_success resp.status then
          (.ok (errorDict ("HTTP error occurred: " ++ toString resp.status ++ " - " ++
            resp.text)), [mkRequest config query])
        else
          match resp.jsonBody with
          | none =>
              (.ok (errorDict "Invalid JSON response from GraphDB."),
               [mkRequest config query])
          | some j => (.ok j, [mkRequest config query])

/-- `asyncio.run`: runs a coroutine to completion and returns its value
(or re-raises its exception). -/
def asyncio_run {α : Type} (x : α) : α := x

/-- `SPARQLTool._arun`: awaits `_execute_sparql_impl(query)`. -/
def SPARQLTool_arun (env : String → Option String) (transport : Transport)
    (query : String) : Except PyError Json × List HttpRequest :=
  execute_sparql_impl env transport query

/-- `SPARQLTool._run`: `asyncio.run(_execute_sparql_impl(query))`. -/
def SPARQLTool_run (env : String → Option String) (transport : Transport)
    (query : String) : Except PyError Json × List HttpRequest :=
  asyncio_run (execute_sparql_impl env transport query)

/-- Two consecutive invocations of the executor with the same
environment, transport and query (the executor threads no state from
the first call into the second). -/
def execute_twice (env : String → Option String) (transport : Transport)
    (query : String) :
    (Except PyError Json × List HttpRequest) × (Except PyError Json × List HttpRequest) :=
  (execute_sparql_impl env transport query, execute_sparql_impl env transport query)

/-! ### Spec-side conditions for the validator -/

/-- Both required prefix tokens occur in the query (rule 1 passes). -/
def hasRequiredPrefixes (q : String) : Prop :=
  strContains q "pfm:" = true ∧ strContains q "ex:" = true

/-- The trimmed, uppercased query starts with one of the four accepted
keywords (rule 2 passes). -/
def keywordOk (q : String) : Prop :=
  startsWithAny (pyUpper (pyStrip q.data)) sparql_keywords = true

/-- The counts of left and right curly brackets agree (rule 3 passes). -/
def bracesBalanced (q : String) : Prop :=
  q.data.count lbrace = q.data.count rbrace

/-- The query contains at least one left and one right curly bracket
(rule 4 passes). -/
def hasBraces (q : String) : Prop :=
  strContains q (String.singleton lbrace) = true ∧
  strContains q (String.singleton rbrace) = true

instance (q : String) : Decidable (hasRequiredPrefixes q) := by
  unfold hasRequiredPrefixes
  infer_instance

instance (q : String) : Decidable (keywordOk q) := by
  unfold keywordOk
  infer_instance

instance (q : String) : Decidable (bracesBalanced q) := by
  unfold bracesBalanced
  infer_instance

instance (q : String) : Decidable (hasBraces q) := by
  unfold hasBraces
  infer_instance

/-! ### Concrete instances used to witness the theorems -/

/-- An environment with all three connection values set. -/
def envOK : String → Option String := fun name =>
  if name = "GRAPHDB_URL" then some "http://localhost:7200/repositories/spendcast"
  else if name = "GRAPHDB_USER" then some "admin"
  else if name = "GRAPHDB_PASSWORD" then some "secret"
  else none

/-- The configuration `get_config` loads from `envOK`. -/
def cfgOK : GraphDBConfig :=
  { url := "http://localhost:7200/repositories/spendcast",
    username := "admin", password := "secret" }

/-- A transport on which every connection attempt is refused. -/
def refusedTransport : Transport :=
  fun _ => .requestError "All connection attempts failed"

/-- A transport answering HTTP 500 with a plain-text body. -/
def serverErrorTransport : Transport :=
  fun _ => .ok { status := 500, text := "server error", jsonBody := none }

/-- A transport answering HTTP 200 with a body that is not JSON. -/
def badJsonTransport : Transport :=
  fun _ => .ok { status := 200, text := "not json", jsonBody := none }

/-- The SPARQL-results-JSON object `\x7b"results": \x7b"bindings": []\x7d\x7d`. -/
def sampleResult : Json :=
  Json.obj [("results", Json.obj [("bindings", Json.arr [])])]

/-- A transport answering HTTP 200 with `sampleResult` as JSON body. -/
def okTransport : Transport :=
  fun _ => .ok { status := 200, text := "", jsonBody := some sampleResult }

/-! ### Helper lemmas about the string primitives -/

theorem startsWithL_nil (s : List Char) : startsWithL s [] = true := by
  cases s <;> rfl

theorem startsWithL_append (p y : List Char) : startsWithL (p ++ y) p = true := by
  induction p with
  | nil => simpa using startsWithL_nil y
  | cons a p ih => simp [startsWithL, ih]

theorem containsSub_of_startsWithL {s p : List Char}
    (h : startsWithL s p = true) : containsSub s p = true := by
  cases s with
  | nil => exact h
  | cons a t => simp [containsSub, h]

theorem containsSub_cons {s p : List Char} (a : Char)
    (h : containsSub s p = true) : containsSub (a :: s) p = true := by
  simp [containsSub, h]

theorem containsSub_append (x p y : List Char) :
    containsSub (x ++ (p ++ y)) p = true := by
  induction x with
  | nil => exact containsSub_of_startsWithL (startsWithL_append p y)
  | cons a x ih => exact containsSub_cons a ih

theorem strContains_append_mid (x p y : String) :
    strContains (x ++ p ++ y) p = true := by
  have h : (x ++ p ++ y).data = x.data ++ (p.data ++ y.data) := by
    show x.data ++ p.data ++ y.data = _
    exact List.append_assoc _ _ _
  unfold strContains
  rw [h]
  exact containsSub_append _ _ _

theorem strContains_append_right (x p : String) :
    strContains (x ++ p) p = true := by
  have h := strContains_append_mid x p ""
  simpa using h

theorem strContains_append_left (p y : String) :
    strContains (p ++ y) p = true := by
  have h := strContains_append_mid "" p y
  simpa using h

theorem containsSub_singleton (s : List Char) (c : Char) :
    containsSub s [c] = true ↔ c ∈ s := by
  induction s with
  | nil => simp [containsSub, startsWithL]
  | cons a t ih => simp [containsSub, startsWithL, ih, eq_comm (a := c) (b := a)]

theorem strContains_singleton (q : String) (c : Char) :
    strContains q (String.singleton c) = true ↔ c ∈ q.data :=
  containsSub_singleton q.data c

theorem missing_prefixes_isEmpty (q : String) :
    (missing_prefixes q).isEmpty = true ↔ hasRequiredPrefixes q := by
  unfold missing_prefixes hasRequiredPrefixes required_prefixes
  cases h1 : strContains q "pfm:" <;> cases h2 : strContains q "ex:" <;>
    simp [List.filter, h1, h2]

/-! ### Branch lemmas for the validator -/

theorem validate_eq_missing (q : String) (h : ¬ (missing_prefixes q).isEmpty) :
    validate_sparql_query q =
      (false, "Missing required prefixes: " ++
        String.intercalate ", " (missing_prefixes q)) := by
  unfold validate_sparql_query
  rw [if_pos h]

theorem validate_eq_keyword (q : String) (h1 : (missing_prefixes q).isEmpty)
    (h2 : ¬ keywordOk q) :
    validate_sparql_query q =
      (false, "Query must start with SELECT, ASK, CONSTRUCT, or DESCRIBE") := by
  unfold keywordOk at h2
  unfold validate_sparql_query
  rw [if_neg (not_not_intro h1), if_pos h2]

theorem validate_eq_unbalanced (q : String) (h1 : (missing_prefixes q).isEmpty)
    (h2 : keywordOk q) (h3 : ¬ bracesBalanced q) :
    validate_sparql_query q = (false, "Unbalanced braces in SPARQL query") := by
  unfold keywordOk at h2
  unfold bracesBalanced at h3
  unfold validate_sparql_query
  rw [if_neg (not_not_intro h1), if_neg (not_not_intro h2), if_pos h3]

theorem validate_eq_nobraces (q : String) (h1 : (missing_prefixes q).isEmpty)
    (h2 : keywordOk q) (h3 : bracesBalanced q) (h4 : ¬ hasBraces q) :
    validate_sparql_query q = (false, "Missing WHERE clause with braces") := by
  unfold keywordOk at h2
  unfold bracesBalanced at h3
  unfold hasBraces at h4
  unfold validate_sparql_query
  rw [if_neg (not_not_intro h1), if_neg (not_not_intro h2),
    if_neg (not_not_intro h3), if_pos (not_and_or.mp h4)]

theorem validate_eq_valid (q : String) (h1 : (missing_prefixes q).isEmpty)
    (h2 : keywordOk q) (h3 : bracesBalanced q) (h4 : hasBraces q) :
    validate_sparql_query q = (true, "Query is valid") := by
  unfold keywordOk at h2
  unfold bracesBalanced at h3
  unfold hasBraces at h4
  unfold validate_sparql_query
  rw [if_neg (not_not_intro h1), if_neg (not_not_intro h2),
    if_neg (not_not_intro h3),
    if_neg (not_or.mpr ⟨not_not_intro h4.1, not_not_intro h4.2⟩)]

theorem missing_msg_ne (m : String) :
    "Missing required prefixes: " ++ m ≠ "Missing WHERE clause with braces" := by
  intro h
  have h8 : (("Missing required prefixes: ").data ++ m.data)[8]? =
      ("Missing WHERE clause with braces").data[8]? :=
    congrArg (fun s => s.data[8]?) h
  rw [List.getElem?_append_left (by decide)] at h8
  exact absurd h8 (by decide)

/-- C3: the validator is a total function of the query string (it is a
plain Lean function, so it is deterministic and never fails); it
returns valid exactly when the two required prefixes occur, the
trimmed uppercased query starts with an accepted keyword, the curly
bracket counts agree, and both bracket characters occur; on failure
the message is that of the earliest failing rule in that order, and on
success it is the confirmation message. -/
theorem validate_sparql_query_characterization (q : String) :
    ((validate_sparql_query q).1 = true ↔
      hasRequiredPrefixes q ∧ keywordOk q ∧ bracesBalanced q ∧ hasBraces q)
  ∧ (¬ hasRequiredPrefixes q →
      validate_sparql_query q =
        (false, "Missing required prefixes: " ++
          String.intercalate ", " (missing_prefixes q)))
  ∧ (hasRequiredPrefixes q → ¬ keywordOk q →
      validate_sparql_query q =
        (false, "Query must start with SELECT, ASK, CONSTRUCT, or DESCRIBE"))
  ∧ (hasRequiredPrefixes q → keywordOk q → ¬ bracesBalanced q →
      validate_sparql_query q = (false, "Unbalanced braces in SPARQL query"))
  ∧ (hasRequiredPrefixes q → keywordOk q → bracesBalanced q → ¬ hasBraces q →
      validate_sparql_query q = (false, "Missing WHERE clause with braces"))
  ∧ (hasRequiredPrefixes q → keywordOk q → bracesBalanced q → hasBraces q →
      validate_sparql_query q = (true, "Query is valid")) := by
  have hme := missing_prefixes_isEmpty q
  refine ⟨⟨?_, ?_⟩, ?_, ?_, ?_, ?_, ?_⟩
  · intro hv
    by_cases hp : hasRequiredPrefixes q
    · by_cases hk : keywordOk q
      · by_cases hb : bracesBalanced q
        · by_cases hw : hasBraces q
          · exact ⟨hp, hk, hb, hw⟩
          · rw [validate_eq_nobraces q (hme.mpr hp) hk hb hw] at hv
            exact absurd hv (by simp)
        · rw [validate_eq_unbalanced q (hme.mpr hp) hk hb] at hv
          exact absurd hv (by simp)
      · rw [validate_eq_keyword q (hme.mpr hp) hk] at hv
        exact absurd hv (by simp)
    · rw [validate_eq_missing q (fun he => hp (hme.mp he))] at hv
      exact absurd hv (by simp)
  · rintro ⟨hp, hk, hb, hw⟩
    rw [validate_eq_valid q (hme.mpr hp) hk hb hw]
  · intro hp
    exact validate_eq_missing q (fun he => hp (hme.mp he))
  · intro hp hk
    exact validate_eq_keyword q (hme.mpr hp) hk
  · intro hp hk hb
    exact validate_eq_unbalanced q (hme.mpr hp) hk hb
  · intro hp hk hb hw
    exact validate_eq_nobraces q (hme.mpr hp) hk hb hw
  · intro hp hk hb hw
    exact validate_eq_valid q (hme.mpr hp) hk hb hw

/-- Witness for C3: a query with both prefixes, a lowercase leading
keyword, and balanced nonempty braces validates. -/
theorem validate_sparql_query_characterization_witness :
    validate_sparql_query " select ?x where \x7b pfm:a ex:b ?s \x7d" =
      (true, "Query is valid") :=
  (validate_sparql_query_characterization
      " select ?x where \x7b pfm:a ex:b ?s \x7d").2.2.2.2.2
    (by decide) (by decide) (by decide) (by decide)

/-- C7: a query missing at least one required prefix is rejected with a
message listing exactly the missing prefixes in the order of
`required_prefixes` (the order-preserving filter). -/
theorem validate_missing_prefix_message (q : String)
    (h : missing_prefixes q ≠ []) :
    validate_sparql_query q =
      (false, "Missing required prefixes: " ++
        String.intercalate ", " (missing_prefixes q)) ∧
    missing_prefixes q =
      required_prefixes.filter (fun p => ! strContains q p) := by
  refine ⟨?_, rfl⟩
  apply validate_eq_missing
  simpa [List.isEmpty_iff] using h

/-- Witness for C7: the prefix-free query from the spec is rejected
with a message naming both prefixes, in input order. -/
theorem validate_missing_prefix_message_witness :
    validate_sparql_query "SELECT * WHERE \x7b?s ?p ?o\x7d LIMIT 10" =
      (false, "Missing required prefixes: pfm:, ex:") :=
  ((validate_missing_prefix_message "SELECT * WHERE \x7b?s ?p ?o\x7d LIMIT 10"
    (by decide)).1).trans (by decide)

/-- C10: the missing-WHERE-clause diagnostic is returned exactly for
queries that pass the prefix and keyword rules and contain no curly
bracket at all: balanced counts plus one absent bracket force both
counts to zero. -/
theorem validate_missing_where_iff (q : String) :
    validate_sparql_query q = (false, "Missing WHERE clause with braces") ↔
      hasRequiredPrefixes q ∧ keywordOk q ∧
      q.data.count lbrace = 0 ∧ q.data.count rbrace = 0 := by
  have hme := missing_prefixes_isEmpty q
  constructor
  · intro hv
    by_cases hp : hasRequiredPrefixes q
    · by_cases hk : keywordOk q
      · by_cases hb : bracesBalanced q
        · by_cases hw : hasBraces q
          · rw [validate_eq_valid q (hme.mpr hp) hk hb hw] at hv
            exact absurd (congrArg Prod.fst hv) (by decide)
          · refine ⟨hp, hk, ?_⟩
            have hz : lbrace ∉ q.data ∨ rbrace ∉ q.data := by
              rcases not_and_or.mp hw with h | h
              · exact Or.inl (fun hm => h ((strContains_singleton q lbrace).mpr hm))
              · exact Or.inr (fun hm => h ((strContains_singleton q rbrace).mpr hm))
            rcases hz with h | h
            · have h0 : q.data.count lbrace = 0 := List.count_eq_zero.mpr h
              exact ⟨h0, by rw [← hb]; exact h0⟩
            · have h0 : q.data.count rbrace = 0 := List.count_eq_zero.mpr h
              exact ⟨by rw [hb]; exact h0, h0⟩
        · rw [validate_eq_unbalanced q (hme.mpr hp) hk hb] at hv
          exact absurd (congrArg Prod.snd hv) (by decide)
      · rw [validate_eq_keyword q (hme.mpr hp) hk] at hv
        exact absurd (congrArg Prod.snd hv) (by decide)
    · rw [validate_eq_missing q (fun he => hp (hme.mp he))] at hv
      exact absurd (congrArg Prod.snd hv) (missing_msg_ne _)
  · rintro ⟨hp, hk, h0l, h0r⟩
    have hb : bracesBalanced q := by
      unfold bracesBalanced
      rw [h0l, h0r]
    have hw : ¬ hasBraces q := by
      intro hB
      have hm : lbrace ∈ q.data := (strContains_singleton q lbrace).mp hB.1
      exact absurd h0l (by simpa [List.count_eq_zero] using hm)
    exact validate_eq_nobraces q (hme.mpr hp) hk hb hw

/-- Witness for C10: a keyword-led query with both prefixes and no
braces gets the missing-WHERE-clause diagnostic. -/
theorem validate_missing_where_iff_witness :
    validate_sparql_query "SELECT ?x pfm:a ex:b no braces here" =
      (false, "Missing WHERE clause with braces") :=
  (validate_missing_where_iff "SELECT ?x pfm:a ex:b no braces here").mpr
    ⟨by decide, by decide, by decide, by decide⟩

theorem str_append_assoc (a b c : String) : (a ++ b) ++ c = a ++ (b ++ c) :=
  congrArg String.mk (List.append_assoc a.data b.data c.data)

/-- C1: with a loadable configuration, every transport failure is
returned as a soft `{"error": m}` record and never raised: a raised
`httpx.RequestError` yields a message containing the cause description,
a non-2xx response yields a message containing the status code and the
body text, an unparseable JSON body yields the fixed message, and in
every case the result is a returned value, not a raised exception. -/
theorem execute_error_mapping (env : String → Option String) (t : Transport)
    (q : String) (cfg : GraphDBConfig) (hc : get_config env = .ok cfg) :
    (∀ desc, t (mkRequest cfg q) = .requestError desc →
       execute_sparql_impl env t q =
         (.ok (errorDict ("An error occurred while connecting to GraphDB: " ++ desc)),
          [mkRequest cfg q]) ∧
       strContains ("An error occurred while connecting to GraphDB: " ++ desc)
         desc = true)
  ∧ (∀ resp, t (mkRequest cfg q) = .ok resp → is_success resp.status = false →
       execute_sparql_impl env t q =
         (.ok (errorDict ("HTTP error occurred: " ++ toString resp.status ++ " - " ++
           resp.text)), [mkRequest cfg q]) ∧
       strContains ("HTTP error occurred: " ++ toString resp.status ++ " - " ++
         resp.text) (toString resp.status) = true ∧
       strContains ("HTTP error occurred: " ++ toString resp.status ++ " - " ++
         resp.text) resp.text = true)
  ∧ (∀ resp, t (mkRequest cfg q) = .ok resp → is_success resp.status = true →
       resp.jsonBody = none →
       execute_sparql_impl env t q =
         (.ok (errorDict "Invalid JSON response from GraphDB."), [mkRequest cfg q]))
  ∧ (∀ e, (execute_sparql_impl env t q).1 ≠ Except.error e) := by
  refine ⟨?_, ?_, ?_, ?_⟩
  · intro desc ht
    refine ⟨?_, strContains_append_right _ _⟩
    simp [execute_sparql_impl, hc, ht]
  · intro resp ht hs
    refine ⟨?_, ?_, strContains_append_right _ _⟩
    · simp [execute_sparql_impl, hc, ht, hs]
    · rw [str_append_assoc ("HTTP error occurred: " ++ toString resp.status)
        " - " resp.text]
      exact strContains_append_mid _ _ _
  · intro resp ht hs hj
    simp [execute_sparql_impl, hc, ht, hs, hj]
  · intro e
    simp only [execute_sparql_impl, hc]
    cases ht : t (mkRequest cfg q) with
    | requestError desc => simp
    | ok resp =>
      by_cases hs : is_success resp.status = true
      · cases hj : resp.jsonBody <;> simp [hs, hj]
      · simp [hs]

/-- C2: if any of the three required environment values is absent or
empty, the executor raises a `ValueError` (the configuration failure of
the spec) whose message carries the name of a missing value, issues no
HTTP request, and does not produce the soft `{"error": ...}` record. -/
theorem execute_config_failure (env : String → Option String) (t : Transport)
    (q : String)
    (h : pyFalsy (env "GRAPHDB_URL") = true ∨ pyFalsy (env "GRAPHDB_USER") = true ∨
         pyFalsy (env "GRAPHDB_PASSWORD") = true) :
    ∃ name, (name = "GRAPHDB_URL" ∨ name = "GRAPHDB_USER" ∨
        name = "GRAPHDB_PASSWORD") ∧
      pyFalsy (env name) = true ∧
      execute_sparql_impl env t q =
        (.error (.valueError (name ++ " environment variable not set.")), []) ∧
      strContains (name ++ " environment variable not set.") name = true := by
  by_cases h1 : pyFalsy (env "GRAPHDB_URL") = true
  · refine ⟨"GRAPHDB_URL", Or.inl rfl, h1, ?_, strContains_append_left _ _⟩
    have hcfg : get_config env =
        .error (.valueError "GRAPHDB_URL environment variable not set.") := by
      unfold get_config
      rw [if_pos h1]
    simp [execute_sparql_impl, hcfg]
  · by_cases h2 : pyFalsy (env "GRAPHDB_USER") = true
    · refine ⟨"GRAPHDB_USER", Or.inr (Or.inl rfl), h2, ?_,
        strContains_append_left _ _⟩
      have hcfg : get_config env =
          .error (.valueError "GRAPHDB_USER environment variable not set.") := by
        unfold get_config
        rw [if_neg h1, if_pos h2]
      simp [execute_sparql_impl, hcfg]
    · have h3 : pyFalsy (env "GRAPHDB_PASSWORD") = true := by
        rcases h with h | h | h
        · exact absurd h h1
        · exact absurd h h2
        · exact h
      refine ⟨"GRAPHDB_PASSWORD", Or.inr (Or.inr rfl), h3, ?_,
        strContains_append_left _ _⟩
      have hcfg : get_config env =
          .error (.valueError "GRAPHDB_PASSWORD environment variable not set.") := by
        unfold get_config
        rw [if_neg h1, if_neg h2, if_pos h3]
      simp [execute_sparql_impl, hcfg]

/-- C4: with a loadable configuration, a 2xx response whose body
decodes as JSON makes the executor return that decoded value
unchanged. -/
theorem execute_success (env : String → Option String) (t : Transport)
    (q : String) (cfg : GraphDBConfig) (hc : get_config env = .ok cfg)
    (resp : HttpResponse) (ht : t (mkRequest cfg q) = .ok resp)
    (hs : is_success resp.status = true) (j : Json)
    (hj : resp.jsonBody = some j) :
    execute_sparql_impl env t q = (.ok j, [mkRequest cfg q]) := by
  simp [execute_sparql_impl, hc, ht, hs, hj]

/-- C5: the synchronous tool entry point is a blocking wrapper
(`asyncio.run`) over the same executor the asynchronous entry point
awaits, so the two agree on every input. -/
theorem run_eq_arun (env : String → Option String) (t : Transport)
    (q : String) :
    SPARQLTool_run env t q = SPARQLTool_arun env t q ∧
    SPARQLTool_run env t q = execute_sparql_impl env t q ∧
    SPARQLTool_arun env t q = execute_sparql_impl env t q :=
  ⟨rfl, rfl, rfl⟩

/-- C6: with a loadable configuration the executor issues exactly one
request, a POST to the configured URL with the form field `query`, the
form and SPARQL-results accept headers, basic auth from the loaded
credentials, and the fixed 30-second timeout. -/
theorem execute_request_shape (env : String → Option String) (t : Transport)
    (q : String) (cfg : GraphDBConfig) (hc : get_config env = .ok cfg) :
    (execute_sparql_impl env t q).2 = [mkRequest cfg q] ∧
    mkRequest cfg q =
      { method := "POST",
        url := cfg.url,
        headers := [("Content-Type", "application/x-www-form-urlencoded"),
                    ("Accept", "application/sparql-results+json")],
        data := [("query", q)],
        auth := some (cfg.username, cfg.password),
        timeoutSecs := 30 } := by
  refine ⟨?_, rfl⟩
  simp only [execute_sparql_impl, hc]
  cases ht : t (mkRequest cfg q) with
  | requestError desc => rfl
  | ok resp =>
    by_cases hs : is_success resp.status = true
    · cases hj : resp.jsonBody <;> simp [hs, hj]
    · simp [hs]

/-- C8: the executor is a pure function of the environment, the
transport and the query — it threads no state between calls, so two
consecutive invocations with the same inputs return the same result
and issue the same requests. -/
theorem execute_idempotent (env : String → Option String) (t : Transport)
    (q : String) :
    (execute_twice env t q).1 = (execute_twice env t q).2 ∧
    (execute_twice env t q).1 = execute_sparql_impl env t q ∧
    (execute_twice env t q).2 = execute_sparql_impl env t q :=
  ⟨rfl, rfl, rfl⟩

/-- C9: with several required environment values missing, `get_config`
reports only the first one in the order URL, user, password, with the
exact message `<NAME> environment variable not set.`, and that message
does not contain the name of either other value. -/
theorem get_config_first_missing (env : String → Option String) :
    (pyFalsy (env "GRAPHDB_URL") = true →
       get_config env =
         .error (.valueError "GRAPHDB_URL environment variable not set."))
  ∧ (pyFalsy (env "GRAPHDB_URL") = false → pyFalsy (env "GRAPHDB_USER") = true →
       get_config env =
         .error (.valueError "GRAPHDB_USER environment variable not set."))
  ∧ (pyFalsy (env "GRAPHDB_URL") = false → pyFalsy (env "GRAPHDB_USER") = false →
       pyFalsy (env "GRAPHDB_PASSWORD") = true →
       get_config env =
         .error (.valueError "GRAPHDB_PASSWORD environment variable not set."))
  ∧ strContains "GRAPHDB_URL environment variable not set." "GRAPHDB_USER" = false
  ∧ strContains "GRAPHDB_URL environment variable not set." "GRAPHDB_PASSWORD" = false
  ∧ strContains "GRAPHDB_USER environment variable not set." "GRAPHDB_URL" = false
  ∧ strContains "GRAPHDB_USER environment variable not set." "GRAPHDB_PASSWORD" = false
  ∧ strContains "GRAPHDB_PASSWORD environment variable not set." "GRAPHDB_URL" = false
  ∧ strContains "GRAPHDB_PASSWORD environment variable not set." "GRAPHDB_USER" = false := by
  refine ⟨?_, ?_, ?_, by decide, by decide, by decide, by decide, by decide, by decide⟩
  · intro h1
    unfold get_config
    rw [if_pos h1]
  · intro h1 h2
    unfold get_config
    rw [if_neg (by simp [h1]), if_pos h2]
  · intro h1 h2 h3
    unfold get_config
    rw [if_neg (by simp [h1]), if_neg (by simp [h2]), if_pos h3]

/-- Witness for C1: against the 500-with-text transport, the executor
returns the soft error record containing the status code and body. -/
theorem execute_error_mapping_witness :
    execute_sparql_impl envOK serverErrorTransport "SELECT 1" =
      (.ok (errorDict "HTTP error occurred: 500 - server error"),
       [mkRequest cfgOK "SELECT 1"]) :=
  ((execute_error_mapping envOK serverErrorTransport "SELECT 1" cfgOK rfl).2.1
    { status := 500, text := "server error", jsonBody := none } rfl rfl).1

/-- Witness for C2: with no environment value set, the executor raises
the URL configuration error and issues no request. -/
theorem execute_config_failure_witness :
    ∃ name, (name = "GRAPHDB_URL" ∨ name = "GRAPHDB_USER" ∨
        name = "GRAPHDB_PASSWORD") ∧
      pyFalsy ((fun _ => none : String → Option String) name) = true ∧
      execute_sparql_impl (fun _ => none) refusedTransport "SELECT 1" =
        (.error (.valueError (name ++ " environment variable not set.")), []) ∧
      strContains (name ++ " environment variable not set.") name = true :=
  execute_config_failure (fun _ => none) refusedTransport "SELECT 1" (Or.inl rfl)

/-- Witness for C4: a 200 response decoding to the sample
SPARQL-results object is returned unchanged. -/
theorem execute_success_witness :
    execute_sparql_impl envOK okTransport "SELECT 1" =
      (.ok sampleResult, [mkRequest cfgOK "SELECT 1"]) :=
  execute_success envOK okTransport "SELECT 1" cfgOK rfl
    { status := 200, text := "", jsonBody := some sampleResult } rfl rfl
    sampleResult rfl

/-- Witness for C6: on a concrete run the executor issues exactly the
one request built from the loaded configuration. -/
theorem execute_request_shape_witness :
    (execute_sparql_impl envOK okTransport "SELECT 1").2 =
      [mkRequest cfgOK "SELECT 1"] :=
  (execute_request_shape envOK okTransport "SELECT 1" cfgOK rfl).1

/-- Witness for C9: with every variable missing, the failure names only
the endpoint URL variable. -/
theorem get_config_first_missing_witness :
    get_config (fun _ => none) =
      .error (.valueError "GRAPHDB_URL environment variable not set.") :=
  (get_config_first_missing (fun _ => none)).1 rfl

end Spendcast
